import Mathlib

/-!
Shallow embedding of the exerciseAPI repository (Go) for verification.

Conventions of the embedding:
* Go int64 values are modelled as ℤ (no overflow is exercised by any statement
  below; durations, calories and identifiers stay far from the int64 bounds).
* Go time.Time values are modelled as ℤ epoch seconds.  The Go zero value of
  time.Time (year 1) is the constant goZeroTime; the fixed baseline date
  parsed by totalPointsByUser is the constant baselineDate.
* Go float64 score arithmetic is modelled as exact rational arithmetic (ℚ).
* The sqlite table of exercises is modelled as a list of StoredExercise rows;
  a SELECT COUNT query is List.countP over that list, and a fallible
  data-access step is an explicit (Except Err _) or (Option Err) outcome
  threaded to the function that performs it, mirroring the Go control flow.
-/

/-- Error values shared by the createExercise, update and get-ranking
packages of the repository; dbFailure stands for an error value produced by
the database/sql layer itself. -/
inductive Err where
  | ErrMissingUserID
  | ErrMissingDescription
  | ErrInvalidDescription
  | ErrMissingType
  | ErrInvalidType
  | ErrMissingStartTime
  | ErrInvalidStartTime
  | ErrMissingDuration
  | ErrMissingCalories
  | ErrInvalidExercise
  | ErrExerciseOverlapping
  | ErrInvalidID
  | ErrMissingID
  | ErrUnwantedUserID
  | ErrUnwantedType
  | ErrDatabaseError
  | ErrNoExerciseFound
  | ErrInvalidUserIDs
  | dbFailure (msg : String)
  deriving DecidableEq, Repr

/-- Epoch seconds of the Go zero value of time.Time, 0001-01-01T00:00:00Z. -/
def goZeroTime : ℤ := -62135596800

/-- Epoch seconds of the constant date string 1990-10-30T12:34:23Z parsed at
the start of totalPointsByUser in get-ranking/ranking.go. -/
def baselineDate : ℤ := 657290063

/-- Exercise type constant RUNNING (shared by all packages). -/
def RunningType : String := "RUNNING"

/-- Exercise type constant SWIMMING (shared by all packages). -/
def SwimmingType : String := "SWIMMING"

/-- Exercise type constant STRENGTH_TRAINING (shared by all packages). -/
def StrenghtTrainingType : String := "STRENGTH_TRAINING"

/-- Exercise type constant CIRCUIT_TRAINING (shared by all packages). -/
def CircuitTrainingType : String := "CIRCUIT_TRAINING"

/-- Membership in the validTypes map of createExercise/create.go. -/
def validTypes (t : String) : Bool :=
  t == RunningType || t == SwimmingType || t == StrenghtTrainingType ||
    t == CircuitTrainingType

/-- Character class of the Go regular expression [A-Za-z0-9\s]: ASCII
letters, digits, and the Go whitespace class (tab, newline, form feed,
carriage return, space). -/
def isAlphaNumSpaceChar (c : Char) : Bool :=
  (decide ('A' ≤ c) && decide (c ≤ 'Z')) ||
  (decide ('a' ≤ c) && decide (c ≤ 'z')) ||
  (decide ('0' ≤ c) && decide (c ≤ '9')) ||
  c == ' ' || c == Char.ofNat 9 || c == Char.ofNat 10 ||
  c == Char.ofNat 12 || c == Char.ofNat 13

/-- Model of isAlphaNumericString from createExercise/create.go and the
update package: the anchored regular expression with a + quantifier matches
exactly the non-empty strings all of whose characters are in the class. -/
def isAlphaNumericString (s : String) : Bool :=
  !s.isEmpty && s.toList.all isAlphaNumSpaceChar

/-- Model of addDurationToDate: adds a duration in seconds to a date. -/
def addDurationToDate (date : ℤ) (duration : ℤ) : ℤ :=
  date + duration

/-- One row of the sqlite exercises table, as inserted by createExercise:
auto identifier, owner, description, type, start and finish timestamps,
duration and calories. -/
structure StoredExercise where
  ID : ℤ
  UserID : ℤ
  Description : String
  ExerciseType : String
  StartTime : ℤ
  FinishTime : ℤ
  Duration : ℤ
  Calories : ℤ
  deriving DecidableEq, Repr

/-- The persisted exercises table. -/
abbrev DB := List StoredExercise

/-- Result of SELECT COUNT over exercises WHERE USER_ID matches and
START_TIME lies between the two bounds (sqlite BETWEEN is inclusive). -/
def startsInRange (db : DB) (userID s f : ℤ) : ℕ :=
  db.countP (fun r =>
    r.UserID == userID && decide (s ≤ r.StartTime) && decide (r.StartTime ≤ f))

/-- Result of SELECT COUNT over exercises WHERE USER_ID matches and
FINISH_TIME lies between the two bounds (sqlite BETWEEN is inclusive). -/
def finishesInRange (db : DB) (userID s f : ℤ) : ℕ :=
  db.countP (fun r =>
    r.UserID == userID && decide (s ≤ r.FinishTime) && decide (r.FinishTime ≤ f))

namespace rank

/-- Row scanned from the ranking query in get-ranking/ranking.go. -/
structure Row where
  ExerciseType : String
  Duration : ℤ
  Calories : ℤ
  FinishTime : ℤ
  deriving DecidableEq, Repr

instance : Inhabited Row := ⟨⟨"", 0, 0, goZeroTime⟩⟩

/-- Per-type points record of get-ranking/ranking.go. -/
structure PointsByType where
  UserID : String
  ExerciseType : String
  Points : ℚ
  LastExerciseDate : ℤ
  deriving DecidableEq, Repr

/-- Aggregated user record of get-ranking/ranking.go. -/
structure User where
  UserID : String
  Points : ℚ
  LastExerciseDate : ℤ
  deriving DecidableEq, Repr

/-- The getMultiplicationFactor map of get-ranking/ranking.go; a missing key
yields the Go zero value 0. -/
def getMultiplicationFactor (t : String) : ℤ :=
  if t = RunningType then 2
  else if t = SwimmingType then 3
  else if t = StrenghtTrainingType then 3
  else if t = CircuitTrainingType then 4
  else 0

/-- The loop body of calculatePointsByExerciseType: walks the rows most
recent first carrying the running percent, breaks once percent is not
positive, otherwise adds basePoints scaled by percent over 100 and lowers
percent by 10.  Go integer division of the nonnegative-plus-59 numerator is
truncated division (Int.tdiv). -/
def pointsLoop (factor : ℤ) : List Row → ℚ → ℚ
  | [], _ => 0
  | r :: rest, percent =>
    if percent ≤ 0 then 0
    else
      ((((r.Duration + 59).tdiv 60 + r.Calories) * factor : ℤ) : ℚ)
          * (percent / 100)
        + pointsLoop factor rest (percent - 10)

/-- Model of calculatePointsByExerciseType from get-ranking/ranking.go. -/
def calculatePointsByExerciseType (userID : String) (exerciseType : String)
    (exercises : List Row) : PointsByType :=
  { UserID := userID
    ExerciseType := exerciseType
    Points := pointsLoop (getMultiplicationFactor exerciseType) exercises 100
    LastExerciseDate :=
      match exercises with
      | [] => goZeroTime
      | r :: _ => r.FinishTime }

/-- Model of totalPointsByUser from get-ranking/ranking.go: sums the points
of every per-type record, and overwrites the last-exercise date with the
date of each record that lies strictly after the fixed baselineDate, so the
final date is the date of the last such record in iteration order (the
constant-date parse never fails and is modelled as baselineDate). -/
def totalPointsByUser (userID : String) (pointsByUser : List PointsByType) :
    User :=
  pointsByUser.foldl
    (fun acc p =>
      { acc with
        Points := acc.Points + p.Points
        LastExerciseDate :=
          if baselineDate - p.LastExerciseDate < 0 then p.LastExerciseDate
          else acc.LastExerciseDate })
    { UserID := userID, Points := 0, LastExerciseDate := goZeroTime }

/-- Model of the Less method of ByPoints in get-ranking/ranking.go: on equal
points the earlier element wins when its date difference is positive,
otherwise points are compared with the greater-than operator. -/
def ByPointsLess (a b : User) : Bool :=
  if a.Points = b.Points then
    decide (0 < a.LastExerciseDate - b.LastExerciseDate)
  else
    decide (b.Points < a.Points)

/-- Model of setResult from get-ranking/ranking.go: each element of the
scanned result either fails (a Scan or time parse error) or yields a row;
the loop aborts with the first failure and otherwise returns the rows in
order. -/
def setResult : List (Except Err Row) → Except Err (List Row)
  | [] => .ok []
  | .error e :: _ => .error e
  | .ok r :: rest => (setResult rest).map (r :: ·)

/-- Model of getExercisesByType from get-ranking/ranking.go: an error when
opening the database or running the query propagates, but the error result
of setResult is bound to a discarded variable and the function returns the
rows (the Go nil slice, i.e. the empty list) together with a nil error. -/
def getExercisesByType (fetched : Except Err (List (Except Err Row))) :
    Except Err (List Row) :=
  match fetched with
  | .error e => .error e
  | .ok raws =>
    match setResult raws with
    | .error _ => .ok []
    | .ok rows => .ok rows

end rank

namespace create

/-- Request structure of createExercise/create.go (second revision, which
also carries the assigned ID). -/
structure Exercise where
  ID : ℤ
  UserID : ℤ
  Description : String
  ExerciseType : String
  StartTime : ℤ
  Duration : ℤ
  Calories : ℤ
  deriving DecidableEq, Repr

/-- Model of checkExerciseOverlapping from createExercise/create.go (second
revision), with the outcome of each data access step explicit: a failing
os.Getwd returns the pair (false, error); a failing sql.Open returns
(true, error); the Scan of each COUNT query is bound to the blank
identifier, so a failing query leaves the corresponding counter at its Go
zero value 0. -/
def checkExerciseOverlapping (wdErr openErr : Option Err)
    (qStart qFinish : Except Err ℕ) : Bool × Option Err :=
  match wdErr with
  | some e => (false, some e)
  | none =>
    match openErr with
    | some e => (true, some e)
    | none =>
      let nStart := match qStart with | .ok n => n | .error _ => 0
      let nFinish := match qFinish with | .ok n => n | .error _ => 0
      if 0 < nStart ∨ 0 < nFinish then (true, some Err.ErrExerciseOverlapping)
      else (false, none)

/-- checkExerciseOverlapping when every data access succeeds and the two
COUNT queries are answered from the exercises table db. -/
def checkExerciseOverlappingDb (db : DB) (userID s f : ℤ) :
    Bool × Option Err :=
  checkExerciseOverlapping none none
    (.ok (startsInRange db userID s f))
    (.ok (finishesInRange db userID s f))

/-- Model of validateCreateExerciseRequest from createExercise/create.go,
parameterised by the overlap guard (a function of user id, start and finish)
so that both the all-successful guard and a guard with failing data access
can be plugged in.  The field checks run in source order; then the guard
runs and its error is returned exactly when its boolean is true. -/
def validateCreateExerciseRequest (check : ℤ → ℤ → ℤ → Bool × Option Err)
    (e : Exercise) : Option Err :=
  if e.UserID = 0 then some Err.ErrMissingUserID
  else if e.Description = "" then some Err.ErrMissingDescription
  else if !isAlphaNumericString e.Description then some Err.ErrInvalidDescription
  else if e.ExerciseType = "" then some Err.ErrMissingType
  else if !validTypes e.ExerciseType then some Err.ErrInvalidType
  else if e.StartTime = goZeroTime then some Err.ErrMissingStartTime
  else if e.Duration = 0 then some Err.ErrMissingDuration
  else if e.Calories = 0 then some Err.ErrMissingCalories
  else
    let res := check e.UserID e.StartTime
      (addDurationToDate e.StartTime e.Duration)
    if res.1 then res.2 else none

/-- The identifier assigned by the sqlite insert (LastInsertId): one more
than the largest identifier in the table. -/
def nextID (db : DB) : ℤ :=
  (db.map (fun r => r.ID)).foldr max 0 + 1

/-- Model of createExercise from createExercise/create.go: inserts the row
with the derived finish timestamp and returns the stored record. -/
def createExercise (db : DB) (e : Exercise) : DB × StoredExercise :=
  let finishDate := addDurationToDate e.StartTime e.Duration
  let stored : StoredExercise :=
    ⟨nextID db, e.UserID, e.Description, e.ExerciseType, e.StartTime,
      finishDate, e.Duration, e.Calories⟩
  (db ++ [stored], stored)

/-- Model of the create ExerciseEndpoint after a successful JSON decode:
validation first (with the all-successful overlap guard over db); a
validation error is returned with the table unchanged, otherwise the
exercise is inserted and the stored record is returned. -/
def ExerciseEndpoint (db : DB) (e : Exercise) :
    DB × Except Err StoredExercise :=
  match validateCreateExerciseRequest (checkExerciseOverlappingDb db) e with
  | some err => (db, .error err)
  | none =>
    let res := createExercise db e
    (res.1, .ok res.2)

/-- The six field checks of validateCreateExerciseRequest that precede the
duration and calories checks, in source order. -/
def passesPreFieldChecks (e : Exercise) : Prop :=
  e.UserID ≠ 0 ∧ e.Description ≠ "" ∧
    isAlphaNumericString e.Description = true ∧ e.ExerciseType ≠ "" ∧
    validTypes e.ExerciseType = true ∧ e.StartTime ≠ goZeroTime

instance (e : Exercise) : Decidable (passesPreFieldChecks e) := by
  unfold passesPreFieldChecks; infer_instance

/-- All eight field checks of validateCreateExerciseRequest that precede the
overlap guard. -/
def passesFieldChecks (e : Exercise) : Prop :=
  passesPreFieldChecks e ∧ e.Duration ≠ 0 ∧ e.Calories ≠ 0

instance (e : Exercise) : Decidable (passesFieldChecks e) := by
  unfold passesFieldChecks; infer_instance

end create

namespace update0

/-- Result of the first revision update COUNT query: rows of the same user,
with a different identifier, whose START_TIME lies in the inclusive range. -/
def startsInRangeExcl (db : DB) (ID userID s f : ℤ) : ℕ :=
  db.countP (fun r =>
    !(r.ID == ID) && r.UserID == userID && decide (s ≤ r.StartTime) &&
      decide (r.StartTime ≤ f))

/-- Result of the first revision update COUNT query: rows of the same user,
with a different identifier, whose FINISH_TIME lies in the inclusive range. -/
def finishesInRangeExcl (db : DB) (ID userID s f : ℤ) : ℕ :=
  db.countP (fun r =>
    !(r.ID == ID) && r.UserID == userID && decide (s ≤ r.FinishTime) &&
      decide (r.FinishTime ≤ f))

/-- Model of checkExerciseOverlapping from the first revision of the update
package (all data access successful): counts rows of the given user other
than the given identifier whose start or finish timestamp lies in the
inclusive range. -/
def checkExerciseOverlapping (db : DB) (ID userID s f : ℤ) : Bool :=
  if 0 < startsInRangeExcl db ID userID s f ∨
      0 < finishesInRangeExcl db ID userID s f then true
  else false

end update0

namespace update1

/-- Request structure of the update package (no ID field; the target
identifier comes from the URL path). -/
structure Exercise where
  UserID : ℤ
  Description : String
  ExerciseType : String
  StartTime : ℤ
  Duration : ℤ
  Calories : ℤ
  deriving DecidableEq, Repr

/-- Model of checkExerciseOverlapping from the second revision of the update
package: it takes no target identifier at all; a failing sql.Open returns
(true, error); the Scan of each COUNT query is bound to the blank
identifier, so a failing query leaves the corresponding counter at its Go
zero value 0. -/
def checkExerciseOverlapping (openErr : Option Err)
    (qStart qFinish : Except Err ℕ) : Bool × Option Err :=
  match openErr with
  | some e => (true, some e)
  | none =>
    let nStart := match qStart with | .ok n => n | .error _ => 0
    let nFinish := match qFinish with | .ok n => n | .error _ => 0
    if 0 < nStart ∨ 0 < nFinish then (true, some Err.ErrExerciseOverlapping)
    else (false, none)

/-- checkExerciseOverlapping of the second update revision with successful
data access, answered from the exercises table db; the queries filter by
USER_ID only and exclude no identifier. -/
def checkExerciseOverlappingDb (db : DB) (userID s f : ℤ) :
    Bool × Option Err :=
  checkExerciseOverlapping none
    (.ok (startsInRange db userID s f))
    (.ok (finishesInRange db userID s f))

/-- Model of validateUpdateExerciseRequest from the second revision of the
update package: the field checks in source order (the request must carry a
zero UserID and an empty ExerciseType), then the overlap guard called with
the UserID field of the request body. -/
def validateUpdateExerciseRequest (db : DB) (ID : ℤ) (e : Exercise) :
    Option Err :=
  if ID = 0 then some Err.ErrMissingID
  else if e.UserID ≠ 0 then some Err.ErrUnwantedUserID
  else if e.Description = "" then some Err.ErrMissingDescription
  else if !isAlphaNumericString e.Description then some Err.ErrInvalidDescription
  else if e.ExerciseType ≠ "" then some Err.ErrUnwantedType
  else if e.StartTime = goZeroTime then some Err.ErrMissingStartTime
  else if e.Duration = 0 then some Err.ErrMissingDuration
  else if e.Calories = 0 then some Err.ErrMissingCalories
  else
    let res := checkExerciseOverlappingDb db e.UserID e.StartTime
      (addDurationToDate e.StartTime e.Duration)
    if res.1 then res.2 else none

/-- Outcome of the existence COUNT query sent by updateExercise.  The query
text in the source, SELECT COUNT(star) exercises WHERE ID=$1, omits the FROM
keyword, so sqlite rejects it (there is no column ID without a table) and
the scanned row yields an error instead of a count. -/
def malformedCountByIdResult : Except Err ℕ :=
  .error (Err.dbFailure ("no such column: ID"))

/-- Model of updateExercise from the second revision of the update package,
parameterised by the outcome of its existence COUNT query (the source sends
the malformed text modelled by malformedCountByIdResult).  The Scan of that
query is bound to the blank identifier, so a failing query leaves the
counter at its Go zero value 0, in which case ErrNoExerciseFound is
returned; otherwise the row is updated and the owner and type read back
from the table are copied into the returned record. -/
def updateExercise (db : DB) (countQ : Except Err ℕ) (ID : ℤ)
    (e : Exercise) : DB × Except Err Exercise :=
  let finishDate := addDurationToDate e.StartTime e.Duration
  let numberOfElements : ℕ := match countQ with | .ok n => n | .error _ => 0
  if numberOfElements = 0 then (db, .error Err.ErrNoExerciseFound)
  else
    let db2 := db.map (fun r =>
      if r.ID == ID then
        { r with
          Description := e.Description
          StartTime := e.StartTime
          FinishTime := finishDate
          Duration := e.Duration
          Calories := e.Calories }
      else r)
    match db2.find? (fun r => r.ID == ID) with
    | some r =>
      (db2, .ok { e with UserID := r.UserID, ExerciseType := r.ExerciseType })
    | none => (db2, .ok { e with UserID := 0, ExerciseType := "" })

end update1

example : rank.calculatePointsByExerciseType ("U") ("RUNNING")
    [⟨("RUNNING"), 600, 70, 1000⟩, ⟨("RUNNING"), 1200, 100, 900⟩,
     ⟨("RUNNING"), 60, 10, 800⟩] =
    { UserID := ("U"), ExerciseType := ("RUNNING"), Points := 1968 / 5,
      LastExerciseDate := 1000 } := by
  norm_num [rank.calculatePointsByExerciseType, rank.pointsLoop,
    rank.getMultiplicationFactor, RunningType, Int.tdiv]

example : isAlphaNumericString ("abc 123") = true := by decide

example : isAlphaNumericString ("") = false := by decide

example : isAlphaNumericString ("a-b") = false := by decide

lemma ceil_div_sixty (d : ℤ) (hd : 0 ≤ d) :
    Int.ceil ((d : ℚ) / 60) = (d + 59).tdiv 60 := by
  rw [Int.tdiv_eq_ediv (by omega) (by norm_num), Int.ceil_eq_iff]
  constructor
  · rw [lt_div_iff (by norm_num : (0:ℚ) < 60)]
    have h : ((d + 59) / 60 - 1) * 60 < d := by omega
    exact_mod_cast h
  · rw [div_le_iff (by norm_num : (0:ℚ) < 60)]
    have h : d ≤ ((d + 59) / 60) * 60 := by omega
    exact_mod_cast h

lemma pointsLoop_spec (factor : ℤ) (l : List rank.Row) :
    ∀ (j : ℕ), (∀ r ∈ l, 0 ≤ r.Duration) →
      rank.pointsLoop factor l (100 - 10 * (j : ℚ)) =
        ∑ k in Finset.range l.length,
          if 10 * (j + k) < 100 then
            (((Int.ceil (((l.getD k default).Duration : ℚ) / 60) +
                (l.getD k default).Calories) * factor : ℤ) : ℚ) *
              ((100 - 10 * ((j + k : ℕ) : ℚ)) / 100)
          else 0 := by
  induction l with
  | nil => intro j _; simp [rank.pointsLoop]
  | cons r rest ih =>
    intro j hd
    have hdr : 0 ≤ r.Duration := hd r (List.mem_cons_self r rest)
    have hdrest : ∀ x ∈ rest, 0 ≤ x.Duration :=
      fun x hx => hd x (List.mem_cons_of_mem r hx)
    by_cases hj : j < 10
    · have hpos : ¬ ((100 : ℚ) - 10 * (j:ℚ) ≤ 0) := by
        rw [not_le, sub_pos]
        exact_mod_cast (by omega : (10 * j : ℕ) < 100)
      have hstep : (100 : ℚ) - 10 * (j:ℚ) - 10 = 100 - 10 * ((j+1 : ℕ) : ℚ) := by
        push_cast; ring
      have hhead :
          ((((r.Duration + 59).tdiv 60 + r.Calories) * factor : ℤ) : ℚ) *
              ((100 - 10 * (j:ℚ)) / 100) =
            if 10 * (j + 0) < 100 then
              (((Int.ceil ((((r :: rest).getD 0 default).Duration : ℚ) / 60) +
                  ((r :: rest).getD 0 default).Calories) * factor : ℤ) : ℚ) *
                ((100 - 10 * ((j + 0 : ℕ) : ℚ)) / 100)
            else 0 := by
        rw [if_pos (by omega : 10 * (j + 0) < 100)]
        simp only [List.getD_cons_zero, Nat.add_zero]
        rw [ceil_div_sixty r.Duration hdr]
      have htail :
          rank.pointsLoop factor rest (100 - 10 * ((j+1 : ℕ) : ℚ)) =
            ∑ k in Finset.range rest.length,
              if 10 * (j + (k + 1)) < 100 then
                (((Int.ceil ((((r :: rest).getD (k+1) default).Duration : ℚ) / 60) +
                    ((r :: rest).getD (k+1) default).Calories) * factor : ℤ) : ℚ) *
                  ((100 - 10 * ((j + (k + 1) : ℕ) : ℚ)) / 100)
              else 0 := by
        rw [ih (j+1) hdrest]
        apply Finset.sum_congr rfl
        intro k _
        have hjk : j + (k + 1) = (j + 1) + k := by omega
        simp only [List.getD_cons_succ]
        rw [hjk]
      simp only [rank.pointsLoop, if_neg hpos]
      rw [hstep, htail, hhead, List.length_cons, Finset.sum_range_succ']
      rw [add_comm]
    · have hle : (100 : ℚ) - 10 * (j:ℚ) ≤ 0 := by
        rw [sub_nonpos]
        exact_mod_cast (by omega : (100:ℕ) ≤ 10 * j)
      simp only [rank.pointsLoop, if_pos hle]
      symm
      apply Finset.sum_eq_zero
      intro k _
      rw [if_neg (by omega : ¬ 10 * (j + k) < 100)]

lemma pointsLoop_take (factor : ℤ) (l : List rank.Row) :
    ∀ (j : ℕ),
      rank.pointsLoop factor l (100 - 10 * (j : ℚ)) =
        rank.pointsLoop factor (l.take (10 - j)) (100 - 10 * (j : ℚ)) := by
  induction l with
  | nil => intro j; simp
  | cons r rest ih =>
    intro j
    by_cases hj : j < 10
    · have h1 : 10 - j = (10 - (j+1)) + 1 := by omega
      have hstep : (100 : ℚ) - 10 * (j:ℚ) - 10 = 100 - 10 * ((j+1 : ℕ) : ℚ) := by
        push_cast; ring
      rw [h1, List.take_succ_cons]
      simp only [rank.pointsLoop]
      rw [hstep, ih (j+1)]
    · have hle : (100 : ℚ) - 10 * (j:ℚ) ≤ 0 := by
        rw [sub_nonpos]
        exact_mod_cast (by omega : (100:ℕ) ≤ 10 * j)
      have h0 : 10 - j = 0 := by omega
      rw [h0, List.take_zero]
      simp only [rank.pointsLoop, if_pos hle]

/-- C1: for every non-empty most-recent-first list of exercise records of
one category (with nonnegative durations, as stored records have), the
calculator returns the sum over positions k of
(ceil(duration over 60) + calories) times the category weight times
(100 - 10k) over 100, a record contributing only while its decay 100 - 10k
is strictly positive; and the running-category example list
(600s, 70cal), (1200s, 100cal), (60s, 10cal) scores exactly 393.6. -/
theorem C1_type_score_formula :
    (∀ (u t : String) (l : List rank.Row), l ≠ [] →
      (∀ r ∈ l, 0 ≤ r.Duration) →
      (rank.calculatePointsByExerciseType u t l).Points =
        ∑ k in Finset.range l.length,
          if 10 * k < 100 then
            (((Int.ceil (((l.getD k default).Duration : ℚ) / 60) +
                (l.getD k default).Calories) *
                rank.getMultiplicationFactor t : ℤ) : ℚ) *
              ((100 - 10 * (k : ℚ)) / 100)
          else 0)
    ∧ (rank.calculatePointsByExerciseType ("U") ("RUNNING")
        [⟨("RUNNING"), 600, 70, 1000⟩, ⟨("RUNNING"), 1200, 100, 900⟩,
         ⟨("RUNNING"), 60, 10, 800⟩]).Points = 1968 / 5 := by
  constructor
  · intro u t l _ hd
    have h := pointsLoop_spec (rank.getMultiplicationFactor t) l 0 hd
    simp only [Nat.cast_zero, mul_zero, sub_zero, zero_add] at h
    simp only [rank.calculatePointsByExerciseType]
    exact h
  · norm_num [rank.calculatePointsByExerciseType, rank.pointsLoop,
      rank.getMultiplicationFactor, RunningType, Int.tdiv]

/-- Witness for C1: the formula applied to the concrete one-record running
list. -/
theorem C1_type_score_formula_witness :
    (rank.calculatePointsByExerciseType ("U") ("RUNNING")
      [⟨("RUNNING"), 60, 10, 800⟩]).Points =
      ∑ k in Finset.range 1,
        if 10 * k < 100 then
          (((Int.ceil ((([(⟨("RUNNING"), 60, 10, 800⟩ : rank.Row)].getD k
                default).Duration : ℚ) / 60) +
              ([(⟨("RUNNING"), 60, 10, 800⟩ : rank.Row)].getD k
                default).Calories) *
              rank.getMultiplicationFactor ("RUNNING") : ℤ) : ℚ) *
            ((100 - 10 * (k : ℚ)) / 100)
        else 0 :=
  C1_type_score_formula.1 ("U") ("RUNNING") [⟨("RUNNING"), 60, 10, 800⟩]
    (by decide) (by decide)

/-- C9: for every category and record list with more than 10 entries, the
computed category score equals the score of the list truncated to its 10
most recent entries. -/
theorem C9_decay_floor_truncation (u t : String) (l : List rank.Row)
    (h : 10 < l.length) :
    (rank.calculatePointsByExerciseType u t l).Points =
      (rank.calculatePointsByExerciseType u t (l.take 10)).Points := by
  have h10 := pointsLoop_take (rank.getMultiplicationFactor t) l 0
  simp only [Nat.cast_zero, mul_zero, sub_zero, Nat.sub_zero] at h10
  simp only [rank.calculatePointsByExerciseType]
  exact h10

/-- Witness for C9: an 11-entry running list scores the same as its first
10 entries. -/
theorem C9_decay_floor_truncation_witness :
    (rank.calculatePointsByExerciseType ("U") ("RUNNING")
      [⟨("RUNNING"), 60, 1, 110⟩, ⟨("RUNNING"), 60, 2, 109⟩,
       ⟨("RUNNING"), 60, 3, 108⟩, ⟨("RUNNING"), 60, 4, 107⟩,
       ⟨("RUNNING"), 60, 5, 106⟩, ⟨("RUNNING"), 60, 6, 105⟩,
       ⟨("RUNNING"), 60, 7, 104⟩, ⟨("RUNNING"), 60, 8, 103⟩,
       ⟨("RUNNING"), 60, 9, 102⟩, ⟨("RUNNING"), 60, 10, 101⟩,
       ⟨("RUNNING"), 60, 11, 100⟩]).Points =
      (rank.calculatePointsByExerciseType ("U") ("RUNNING")
        ([⟨("RUNNING"), 60, 1, 110⟩, ⟨("RUNNING"), 60, 2, 109⟩,
          ⟨("RUNNING"), 60, 3, 108⟩, ⟨("RUNNING"), 60, 4, 107⟩,
          ⟨("RUNNING"), 60, 5, 106⟩, ⟨("RUNNING"), 60, 6, 105⟩,
          ⟨("RUNNING"), 60, 7, 104⟩, ⟨("RUNNING"), 60, 8, 103⟩,
          ⟨("RUNNING"), 60, 9, 102⟩, ⟨("RUNNING"), 60, 10, 101⟩,
          ⟨("RUNNING"), 60, 11, 100⟩].take 10)).Points :=
  C9_decay_floor_truncation ("U") ("RUNNING") _ (by decide)

/-- C8: the ranking comparator is a strict, transitive order on user
scores: it is transitive and irreflexive, orders users descending by total
points, and among users with equal points ranks the one with the more
recent last-exercise date higher. -/
theorem C8_comparator_strict_transitive :
    (∀ a b c : rank.User, rank.ByPointsLess a b = true →
        rank.ByPointsLess b c = true → rank.ByPointsLess a c = true)
    ∧ (∀ a : rank.User, rank.ByPointsLess a a = false)
    ∧ (∀ a b : rank.User, rank.ByPointsLess a b = true ↔
        (b.Points < a.Points ∨
          (a.Points = b.Points ∧
            b.LastExerciseDate < a.LastExerciseDate))) := by
  have hiff : ∀ a b : rank.User, rank.ByPointsLess a b = true ↔
      (b.Points < a.Points ∨
        (a.Points = b.Points ∧ b.LastExerciseDate < a.LastExerciseDate)) := by
    intro a b
    unfold rank.ByPointsLess
    by_cases h : a.Points = b.Points
    · simp [h, sub_pos, lt_irrefl]
    · simp [h]
  refine ⟨?_, ?_, hiff⟩
  · intro a b c hab hbc
    rw [hiff] at hab hbc ⊢
    rcases hab with h1 | ⟨h1, h1d⟩ <;> rcases hbc with h2 | ⟨h2, h2d⟩
    · exact Or.inl (lt_trans h2 h1)
    · left; rw [← h2]; exact h1
    · left; rw [h1]; exact h2
    · exact Or.inr ⟨h1.trans h2, lt_trans h2d h1d⟩
  · intro a
    simp [rank.ByPointsLess]

/-- Witness for C8: transitivity applied to three concrete users. -/
theorem C8_comparator_witness :
    rank.ByPointsLess ⟨("a"), 3, 0⟩ ⟨("c"), 1, 0⟩ = true :=
  C8_comparator_strict_transitive.1 ⟨("a"), 3, 0⟩ ⟨("b"), 2, 0⟩ ⟨("c"), 1, 0⟩
    (by norm_num [rank.ByPointsLess]) (by norm_num [rank.ByPointsLess])

/-- C2 (code divergence): on the per-type records (points 1, finish
2000-01-01) then (points 2, finish 1995-01-01), both after the 1990
baseline, totalPointsByUser does sum the points, but it reports the
last-activity timestamp of the category iterated last (1995-01-01) instead
of the maximum (2000-01-01), and reversing the iteration order changes the
answer. -/
theorem C2_aggregator_divergence :
    (rank.totalPointsByUser ("u")
        [⟨("u"), ("RUNNING"), 1, 946684800⟩,
         ⟨("u"), ("SWIMMING"), 2, 788918400⟩]).Points = 1 + 2
    ∧ (rank.totalPointsByUser ("u")
        [⟨("u"), ("RUNNING"), 1, 946684800⟩,
         ⟨("u"), ("SWIMMING"), 2, 788918400⟩]).LastExerciseDate = 788918400
    ∧ (rank.totalPointsByUser ("u")
        [⟨("u"), ("SWIMMING"), 2, 788918400⟩,
         ⟨("u"), ("RUNNING"), 1, 946684800⟩]).LastExerciseDate = 946684800
    ∧ max (946684800 : ℤ) 788918400 = 946684800
    ∧ (788918400 : ℤ) ≠ 946684800 := by
  refine ⟨?_, ?_, ?_, by decide, by decide⟩ <;>
    norm_num [rank.totalPointsByUser, baselineDate, goZeroTime]

/-- C6 (code divergence): a failure while reading the rows of a ranking
fetch is swallowed by getExercisesByType: setResult does return the error,
but getExercisesByType returns the empty row list with a nil error instead
of propagating it, while open and query failures do propagate. -/
theorem C6_fetch_divergence :
    rank.setResult [.error (Err.dbFailure ("scan failed"))] =
        .error (Err.dbFailure ("scan failed"))
    ∧ rank.getExercisesByType
        (.ok [.error (Err.dbFailure ("scan failed"))]) = .ok []
    ∧ rank.getExercisesByType (.error (Err.dbFailure ("open failed"))) =
        .error (Err.dbFailure ("open failed")) :=
  ⟨rfl, rfl, rfl⟩

lemma validateCreate_of_fieldChecks (check : ℤ → ℤ → ℤ → Bool × Option Err)
    (e : create.Exercise) (hpass : create.passesFieldChecks e) :
    create.validateCreateExerciseRequest check e =
      (if (check e.UserID e.StartTime
            (addDurationToDate e.StartTime e.Duration)).1 then
        (check e.UserID e.StartTime
          (addDurationToDate e.StartTime e.Duration)).2
      else none) := by
  obtain ⟨⟨h1, h2, h3, h4, h5, h6⟩, h7, h8⟩ := hpass
  unfold create.validateCreateExerciseRequest
  rw [if_neg h1, if_neg h2, if_neg (by simp [h3]), if_neg h4,
    if_neg (by simp [h5]), if_neg h6, if_neg h7, if_neg h8]

lemma checkDb_fst_iff (db : DB) (u s f : ℤ) :
    (create.checkExerciseOverlappingDb db u s f).1 = true ↔
      (0 < startsInRange db u s f ∨ 0 < finishesInRange db u s f) := by
  unfold create.checkExerciseOverlappingDb create.checkExerciseOverlapping
  by_cases h : 0 < startsInRange db u s f ∨ 0 < finishesInRange db u s f
  · simp [h]
  · simp [h]

lemma checkDb_eq_of_fst (db : DB) (u s f : ℤ)
    (h : (create.checkExerciseOverlappingDb db u s f).1 = true) :
    create.checkExerciseOverlappingDb db u s f =
      (true, some Err.ErrExerciseOverlapping) := by
  have hc := (checkDb_fst_iff db u s f).mp h
  unfold create.checkExerciseOverlappingDb create.checkExerciseOverlapping
  simp [hc]

/-- C3: the create overlap guard reports a collision exactly when some
row of the table owned by the requesting user has its start timestamp in
the inclusive proposed window, or its finish timestamp in that window; and
whenever a collision is reported for a request that passes the field
checks, the create endpoint answers the overlap error and leaves the table
unchanged. -/
theorem C3_create_overlap_guard :
    (∀ (db : DB) (u s f : ℤ),
      (create.checkExerciseOverlappingDb db u s f).1 = true ↔
        ∃ r ∈ db, r.UserID = u ∧
          ((s ≤ r.StartTime ∧ r.StartTime ≤ f) ∨
            (s ≤ r.FinishTime ∧ r.FinishTime ≤ f)))
    ∧ (∀ (db : DB) (e : create.Exercise), create.passesFieldChecks e →
        (create.checkExerciseOverlappingDb db e.UserID e.StartTime
          (addDurationToDate e.StartTime e.Duration)).1 = true →
        create.ExerciseEndpoint db e =
          (db, .error Err.ErrExerciseOverlapping)) := by
  constructor
  · intro db u s f
    rw [checkDb_fst_iff]
    unfold startsInRange finishesInRange
    simp only [List.countP_pos_iff, Bool.and_eq_true, beq_iff_eq,
      decide_eq_true_eq]
    constructor
    · rintro (⟨r, hr, ⟨h1, h2⟩, h3⟩ | ⟨r, hr, ⟨h1, h2⟩, h3⟩)
      · exact ⟨r, hr, h1, Or.inl ⟨h2, h3⟩⟩
      · exact ⟨r, hr, h1, Or.inr ⟨h2, h3⟩⟩
    · rintro ⟨r, hr, h1, (⟨h2, h3⟩ | ⟨h2, h3⟩)⟩
      · exact Or.inl ⟨r, hr, ⟨h1, h2⟩, h3⟩
      · exact Or.inr ⟨r, hr, ⟨h1, h2⟩, h3⟩
  · intro db e hpass hov
    have hres := checkDb_eq_of_fst db e.UserID e.StartTime
      (addDurationToDate e.StartTime e.Duration) hov
    unfold create.ExerciseEndpoint
    rw [validateCreate_of_fieldChecks _ e hpass, hres]
    rfl

/-- Witness for C3: a stored exercise of user 7 over the window 100 to 160
collides with a proposed window 90 to 120 of the same user, and the
endpoint rejects without persisting. -/
theorem C3_create_overlap_guard_witness :
    create.ExerciseEndpoint
        [⟨1, 7, ("d"), ("RUNNING"), 100, 160, 60, 5⟩]
        ⟨0, 7, ("abc"), ("RUNNING"), 90, 30, 5⟩ =
      ([⟨1, 7, ("d"), ("RUNNING"), 100, 160, 60, 5⟩],
        .error Err.ErrExerciseOverlapping) :=
  C3_create_overlap_guard.2 [⟨1, 7, ("d"), ("RUNNING"), 100, 160, 60, 5⟩]
    ⟨0, 7, ("abc"), ("RUNNING"), 90, 30, 5⟩ (by decide) (by decide)

/-- C5 (code divergence): when the overlap guard of the second create
revision suffers a data-access failure it does not block the write: with
both COUNT Scans failing, validation passes outright; with a failing
os.Getwd the guard answers no collision even though the start query would
have counted 3 collisions; the second update revision behaves the same on
failing Scans. -/
theorem C5_fail_open_divergence :
    create.validateCreateExerciseRequest
        (fun _ _ _ => create.checkExerciseOverlapping none none
          (.error (Err.dbFailure ("scan failed")))
          (.error (Err.dbFailure ("scan failed"))))
        ⟨0, 7, ("abc"), ("RUNNING"), 1000, 600, 70⟩ = none
    ∧ create.checkExerciseOverlapping (some (Err.dbFailure ("getwd failed")))
        none (.ok 3) (.ok 0) =
          (false, some (Err.dbFailure ("getwd failed")))
    ∧ update1.checkExerciseOverlapping none
        (.error (Err.dbFailure ("scan failed")))
        (.error (Err.dbFailure ("scan failed"))) = (false, none) :=
  ⟨by decide, rfl, rfl⟩

/-- C4 (code divergence): with stored exercises 1 and 2 both owned by user
5, an update of exercise 1 to the window 250 to 450 overlaps exercise 2 of
the same owner, yet update validation passes: the guard is called with the
UserID field of the request body, which validation forces to 0, so it
inspects records of user 0 rather than records of the target owner (and
the second revision guard excludes no identifier at all); the first
revision guard with its identifier exclusion also reports no collision for
user 0. -/
theorem C4_update_overlap_divergence :
    update1.validateUpdateExerciseRequest
        [⟨1, 5, ("a"), ("RUNNING"), 100, 200, 100, 10⟩,
         ⟨2, 5, ("b"), ("RUNNING"), 300, 400, 100, 10⟩] 1
        ⟨0, ("abc"), (""), 250, 200, 10⟩ = none
    ∧ (∃ r ∈ ([⟨1, 5, ("a"), ("RUNNING"), 100, 200, 100, 10⟩,
          ⟨2, 5, ("b"), ("RUNNING"), 300, 400, 100, 10⟩] : DB),
        r.ID ≠ 1 ∧ r.UserID = 5 ∧ 250 ≤ r.StartTime ∧ r.StartTime ≤ 450)
    ∧ (∃ r ∈ ([⟨1, 5, ("a"), ("RUNNING"), 100, 200, 100, 10⟩,
          ⟨2, 5, ("b"), ("RUNNING"), 300, 400, 100, 10⟩] : DB),
        r.ID = 1 ∧ r.UserID = 5)
    ∧ update0.checkExerciseOverlapping
        [⟨1, 5, ("a"), ("RUNNING"), 100, 200, 100, 10⟩,
         ⟨2, 5, ("b"), ("RUNNING"), 300, 400, 100, 10⟩] 1 0 250 450 =
          false :=
  ⟨by decide, by decide, by decide, by decide⟩

/-- C7 (code divergence): exercise 1 exists in the table, yet
updateExercise answers the not-found error: its existence COUNT query is
the malformed text without FROM, the failing Scan is discarded, and the
counter keeps its zero value. -/
theorem C7_update_notfound_divergence :
    (([⟨1, 5, ("a"), ("RUNNING"), 100, 200, 100, 10⟩] : DB).any
        (fun r => r.ID == 1) = true)
    ∧ update1.updateExercise
        [⟨1, 5, ("a"), ("RUNNING"), 100, 200, 100, 10⟩]
        update1.malformedCountByIdResult 1 ⟨0, ("abc"), (""), 250, 200, 10⟩ =
      ([⟨1, 5, ("a"), ("RUNNING"), 100, 200, 100, 10⟩],
        .error Err.ErrNoExerciseFound) :=
  ⟨rfl, rfl⟩

/-- C10 (counterexample): the request with user 1, a valid description,
type and start time, and both duration 0 and calories 0 is a create request
whose calories field equals 0, yet validation rejects it with the
missing-duration error, not the missing-calories error. -/
theorem C10_zero_fields_counterexample :
    create.validateCreateExerciseRequest (create.checkExerciseOverlappingDb [])
        ⟨0, 1, ("abc"), ("RUNNING"), 1000, 0, 0⟩ =
      some Err.ErrMissingDuration
    ∧ Err.ErrMissingDuration ≠ Err.ErrMissingCalories :=
  ⟨by decide, by decide⟩

/-- C10 (amended): for every create request that passes the field checks
before the duration and calories checks, a zero duration is rejected with
the missing-duration error, and a zero calories value with nonzero
duration is rejected with the missing-calories error; in both cases the
endpoint leaves the table unchanged, so an explicitly supplied zero is
indistinguishable from an absent field and no zero-duration or
zero-calorie exercise is ever persisted. -/
theorem C10_zero_fields_amended :
    ∀ (db : DB) (e : create.Exercise), create.passesPreFieldChecks e →
      (e.Duration = 0 →
        create.ExerciseEndpoint db e = (db, .error Err.ErrMissingDuration))
      ∧ (e.Duration ≠ 0 → e.Calories = 0 →
        create.ExerciseEndpoint db e =
          (db, .error Err.ErrMissingCalories)) := by
  intro db e hpre
  obtain ⟨h1, h2, h3, h4, h5, h6⟩ := hpre
  constructor
  · intro hdur
    unfold create.ExerciseEndpoint create.validateCreateExerciseRequest
    rw [if_neg h1, if_neg h2, if_neg (by simp [h3]), if_neg h4,
      if_neg (by simp [h5]), if_neg h6, if_pos hdur]
  · intro hdur hcal
    unfold create.ExerciseEndpoint create.validateCreateExerciseRequest
    rw [if_neg h1, if_neg h2, if_neg (by simp [h3]), if_neg h4,
      if_neg (by simp [h5]), if_neg h6, if_neg hdur, if_pos hcal]

/-- Witness for C10 (amended): a request with duration 600 and calories 0
is rejected with the missing-calories error and nothing is stored. -/
theorem C10_zero_fields_amended_witness :
    create.ExerciseEndpoint [] ⟨0, 1, ("abc"), ("RUNNING"), 1000, 600, 0⟩ =
      ([], .error Err.ErrMissingCalories) :=
  (C10_zero_fields_amended [] ⟨0, 1, ("abc"), ("RUNNING"), 1000, 600, 0⟩
    (by decide)).2 (by decide) rfl
